import Mathlib

/-!
Verification of the error-handling examples in `src/src/main.rs` against the
repository specification.

The program consists of three pieces of executable logic, all operating on
the fixed path `"hello.txt"`:

* the open-or-create logic in `main` (lines 33-46): open the file; on a
  `NotFound` open error, create it (terminating the process on a creation
  error); on any other open error, terminate the process;
* `read_username_from_file` (lines 76-90), the spec's `loadStrict`: open the
  file and read it to a string, returning each error to the caller via
  explicit `match`es;
* `read_username_from_file2` (lines 94-104): the same contract written with
  the short-circuiting `?` operator.

The filesystem is embedded as a map from path to an abstract per-path state
that records how the primitive `open`, `create` and `read_to_string` calls
behave there.  Stateful code is explicit state passing: operations that can
modify the filesystem return the new filesystem alongside their result.
-/

namespace ErrorHandling

/-- Classification of I/O failures.  Mirrors the grouping in the source,
which matches `std::io::ErrorKind::NotFound` specially and treats every
other kind uniformly (the `other_error` arm at line 44). -/
inductive ErrorKind where
  | notFound
  | permissionDenied
  | other
  deriving DecidableEq, Repr

/-- State of the resource at one filesystem path, as seen by the three
primitives the program uses:

* `absent cf`: no resource exists, so opening fails with `NotFound`;
  creating succeeds and produces an empty file when `cf = none`, and fails
  with kind `k` when `cf = some k` (e.g. an unwritable directory);
* `readable c`: a resource exists with text content `c`; opening and
  reading it succeed;
* `openFails k`: a resource for which opening fails with kind `k`
  (e.g. `permissionDenied`);
* `readFails k`: a resource that opens successfully but whose
  `read_to_string` fails with kind `k` (e.g. invalid UTF-8). -/
inductive FileState where
  | absent (createErr : Option ErrorKind)
  | readable (content : String)
  | openFails (k : ErrorKind)
  | readFails (k : ErrorKind)
  deriving DecidableEq, Repr

/-- A filesystem: the state of the resource at every path. -/
abbrev FS : Type := String → FileState

/-- `std::fs::File::open path`.  Returns the handle — recorded as the file
state at open time — or the failing error kind.  Opening never modifies the
filesystem. -/
def openFile (path : String) (fs : FS) : Except ErrorKind FileState :=
  match fs path with
  | .absent _ => .error .notFound
  | .readable c => .ok (.readable c)
  | .openFails k => .error k
  | .readFails k => .ok (.readFails k)

/-- `std::fs::File::create path`.  On success, returns a handle to a new
empty file together with the updated filesystem; fails when the per-path
state says creation fails there. -/
def createFile (path : String) (fs : FS) : Except ErrorKind (FileState × FS) :=
  match fs path with
  | .absent (some k) => .error k
  | .openFails k => .error k
  | _ => .ok (.readable "", fun q => if q = path then .readable "" else fs q)

/-- `Read::read_to_string` on an open handle: yields the file's full text
contents, or the error kind recorded for the handle.  (The `absent` and
`openFails` cases cannot arise for a handle produced by a successful
`openFile` or `createFile`.) -/
def readToString (f : FileState) : Except ErrorKind String :=
  match f with
  | .readable c => .ok c
  | .readFails k => .error k
  | .absent _ => .error .other
  | .openFails k => .error k

/-- `read_username_from_file` (source lines 76-90) generalized over the
path: the source hardcodes `"hello.txt"`; this definition is the same body
with the literal abstracted, used to state the spec's path-quantified
properties of `loadStrict`.  The function performs no write, so the
filesystem is returned unchanged on every path through the body. -/
def read_username_at (path : String) (fs : FS) : Except ErrorKind String × FS :=
  match openFile path fs with
  | .ok file =>
    match readToString file with
    | .ok s => (.ok s, fs)
    | .error e => (.error e, fs)
  | .error e => (.error e, fs)

/-- `read_username_from_file` (source lines 76-90), the spec's `loadStrict`:
open `"hello.txt"`, returning the open error to the caller if any, then read
it to a string, returning either the contents or the read error. -/
def read_username_from_file (fs : FS) : Except ErrorKind String × FS :=
  match openFile "hello.txt" fs with
  | .ok file =>
    match readToString file with
    | .ok s => (.ok s, fs)
    | .error e => (.error e, fs)
  | .error e => (.error e, fs)

/-- `read_username_from_file2` (source lines 94-104): the same contract
written with the `?` operator, embedded as monadic `bind` on `Except`, which
is exactly the short-circuit behaviour of `?` (the error is returned from
the whole function; the success value flows on). -/
def read_username_from_file2 (fs : FS) : Except ErrorKind String × FS :=
  ((openFile "hello.txt" fs).bind fun f =>
    (readToString f).bind fun s => Except.ok s, fs)

/-- Outcome of the spec's `loadOrCreate`: a `Success`/`Failure` value
returned to the caller, or unrecoverable process termination (`panic!`)
emitting the given failure cause. -/
inductive LoadResult where
  | success (s : String)
  | failure (e : ErrorKind)
  | panicked (cause : ErrorKind)
  deriving DecidableEq, Repr

/-- Modelled from the spec: the read step of `loadOrCreate`.  The source's
`main` (lines 33-46) only obtains the file handle and never reads it; the
spec's `loadOrCreate` goes on to "read the entire resource into a text
buffer", returning `Success(buffer contents)` or `Failure(failure info)`.
The read primitive itself is the source's `read_to_string` as embedded in
`readToString`. -/
def readStep (f : FileState) : LoadResult :=
  match readToString f with
  | .ok s => .success s
  | .error e => .failure e

/-- The spec's `loadOrCreate`, generalized over the path.  The open-or-create
logic is `main` lines 33-46: open the file; on success use the handle; on a
`NotFound` open error create the file, terminating the process on a creation
error; on any other open error terminate the process.  The final read step is
`readStep` (modelled from the spec, see there).  Returns the outcome together
with the resulting filesystem. -/
def loadOrCreateAt (path : String) (fs : FS) : LoadResult × FS :=
  match openFile path fs with
  | .ok file => (readStep file, fs)
  | .error error =>
    match error with
    | .notFound =>
      match createFile path fs with
      | .ok (fc, fs2) => (readStep fc, fs2)
      | .error e => (.panicked e, fs)
    | k => (.panicked k, fs)

/-- The spec's `loadOrCreate` at the path the source actually uses:
`main` opens and creates `"hello.txt"` (lines 33 and 40). -/
def loadOrCreate (fs : FS) : LoadResult × FS :=
  match openFile "hello.txt" fs with
  | .ok file => (readStep file, fs)
  | .error error =>
    match error with
    | .notFound =>
      match createFile "hello.txt" fs with
      | .ok (fc, fs2) => (readStep fc, fs2)
      | .error e => (.panicked e, fs)
    | k => (.panicked k, fs)

/-- The everywhere-`st` filesystem, used for concrete witnesses. -/
def fsAll (st : FileState) : FS := fun _ => st

/-- C1: for every path `p` at which a readable resource with content `c`
exists, `loadOrCreate` and `loadStrict` (`read_username_from_file`) both
yield the `Success` variant carrying the file's full text contents `c`
(and leave the filesystem unchanged). -/
theorem loadOrCreate_loadStrict_readable (p c : String) (fs : FS)
    (h : fs p = .readable c) :
    loadOrCreateAt p fs = (.success c, fs) ∧
    read_username_at p fs = (.ok c, fs) := by
  unfold loadOrCreateAt read_username_at openFile
  rw [h]
  exact ⟨rfl, rfl⟩

/-- Witness for C1 at a concrete filesystem whose every path holds a
readable file with content `"hello"`. -/
theorem loadOrCreate_loadStrict_readable_witness :
    loadOrCreateAt "data.txt" (fsAll (.readable "hello")) =
      (.success "hello", fsAll (.readable "hello")) ∧
    read_username_at "data.txt" (fsAll (.readable "hello")) =
      (.ok "hello", fsAll (.readable "hello")) :=
  loadOrCreate_loadStrict_readable "data.txt" "hello" (fsAll (.readable "hello")) rfl

/-- C2: for every path `p` at which no resource exists, `loadStrict`
(`read_username_from_file`) returns the `NotFound` error to the caller and
leaves the filesystem unchanged (it creates nothing). -/
theorem loadStrict_absent_notFound (p : String) (o : Option ErrorKind) (fs : FS)
    (h : fs p = .absent o) :
    read_username_at p fs = (.error .notFound, fs) := by
  unfold read_username_at openFile
  rw [h]

/-- Witness for C2 at a concrete filesystem with no resource anywhere. -/
theorem loadStrict_absent_notFound_witness :
    read_username_at "missing.txt" (fsAll (.absent none)) =
      (.error .notFound, fsAll (.absent none)) :=
  loadStrict_absent_notFound "missing.txt" none (fsAll (.absent none)) rfl

/-- C3: for every path `p` at which no resource exists (and where the
environment permits creation, the case complementary to C5's failed
creation), `loadOrCreate` returns `Success ""` and the resulting filesystem
holds a new empty readable resource at `p`. -/
theorem loadOrCreate_absent_creates (p : String) (fs : FS)
    (h : fs p = .absent none) :
    (loadOrCreateAt p fs).1 = .success "" ∧
    (loadOrCreateAt p fs).2 p = .readable "" := by
  unfold loadOrCreateAt openFile createFile
  rw [h]
  exact ⟨rfl, by simp [readStep]⟩

/-- Witness for C3 at a concrete filesystem with no resource anywhere. -/
theorem loadOrCreate_absent_creates_witness :
    (loadOrCreateAt "missing.txt" (fsAll (.absent none))).1 = .success "" ∧
    (loadOrCreateAt "missing.txt" (fsAll (.absent none))).2 "missing.txt" =
      .readable "" :=
  loadOrCreate_absent_creates "missing.txt" (fsAll (.absent none)) rfl

/-- C4: for every path `p` whose open fails with a category `k` other than
`NotFound` (e.g. permission denied), `loadOrCreate` terminates the process
unrecoverably emitting that failure's cause `k`, rather than returning a
`Failure` value. -/
theorem loadOrCreate_other_open_error_panics (p : String) (k : ErrorKind) (fs : FS)
    (h : fs p = .openFails k) (hk : k ≠ .notFound) :
    loadOrCreateAt p fs = (.panicked k, fs) := by
  unfold loadOrCreateAt openFile createFile
  rw [h]
  cases k with
  | notFound => exact absurd rfl hk
  | permissionDenied => rfl
  | other => rfl

/-- Witness for C4 at a concrete filesystem where every open is denied. -/
theorem loadOrCreate_other_open_error_panics_witness :
    loadOrCreateAt "hello.txt" (fsAll (.openFails .permissionDenied)) =
      (.panicked .permissionDenied, fsAll (.openFails .permissionDenied)) :=
  loadOrCreate_other_open_error_panics "hello.txt" .permissionDenied
    (fsAll (.openFails .permissionDenied)) rfl (by decide)

/-- C5: for every path `p` where the open fails with `NotFound` (no
resource exists) and the subsequent creation attempt fails with cause `k`,
`loadOrCreate` terminates the process unrecoverably emitting `k`. -/
theorem loadOrCreate_create_failure_panics (p : String) (k : ErrorKind) (fs : FS)
    (h : fs p = .absent (some k)) :
    loadOrCreateAt p fs = (.panicked k, fs) := by
  unfold loadOrCreateAt openFile createFile
  rw [h]

/-- Witness for C5 at a concrete filesystem where nothing exists and
creation fails with a permission error. -/
theorem loadOrCreate_create_failure_panics_witness :
    loadOrCreateAt "hello.txt" (fsAll (.absent (some .permissionDenied))) =
      (.panicked .permissionDenied, fsAll (.absent (some .permissionDenied))) :=
  loadOrCreate_create_failure_panics "hello.txt" .permissionDenied
    (fsAll (.absent (some .permissionDenied))) rfl

/-- C6: once a handle has been obtained, a failing read makes `loadOrCreate`
return `Failure` with the read error to the caller (first conjunct), and
`loadOrCreate` never terminates the process on a read error: a `panicked`
outcome can only stem from a failing open with that cause or from a failing
creation attempt with that cause (second conjunct). -/
theorem loadOrCreate_read_error_returns_failure (p : String) (k : ErrorKind) (fs : FS) :
    (fs p = .readFails k → loadOrCreateAt p fs = (.failure k, fs)) ∧
    ((loadOrCreateAt p fs).1 = .panicked k →
      fs p = .openFails k ∨ fs p = .absent (some k)) := by
  constructor
  · intro h
    unfold loadOrCreateAt openFile
    rw [h]
    rfl
  · intro h
    rcases hfs : fs p with o | c | k2 | k2
    · rcases o with _ | k2
      · simp [loadOrCreateAt, openFile, createFile, readStep, readToString, hfs] at h
      · right
        simp only [loadOrCreateAt, openFile, createFile, hfs] at h
        cases h
        rfl
    · simp [loadOrCreateAt, openFile, readStep, readToString, hfs] at h
    · left
      cases k2 <;>
        simp only [loadOrCreateAt, openFile, createFile, hfs] at h <;>
        cases h <;> rfl
    · simp [loadOrCreateAt, openFile, readStep, readToString, hfs] at h

/-- Witness for C6: a concrete read failure is surfaced as `Failure`, and a
concrete `panicked` outcome is traced back to its failing open. -/
theorem loadOrCreate_read_error_returns_failure_witness :
    loadOrCreateAt "hello.txt" (fsAll (.readFails .other)) =
      (.failure .other, fsAll (.readFails .other)) ∧
    ((fsAll (.openFails .other)) "hello.txt" = .openFails .other ∨
      (fsAll (.openFails .other)) "hello.txt" = .absent (some .other)) :=
  ⟨(loadOrCreate_read_error_returns_failure "hello.txt" .other
      (fsAll (.readFails .other))).1 rfl,
   (loadOrCreate_read_error_returns_failure "hello.txt" .other
      (fsAll (.openFails .other))).2 rfl⟩

/-- C7: `loadOrCreate` is idempotent after first creation: starting from a
filesystem with no resource at `p`, the first call yields `Success ""`, and
a second call on the resulting filesystem yields `Success ""` again while
leaving the filesystem exactly as it was (no further creation). -/
theorem loadOrCreate_idempotent (p : String) (fs : FS)
    (h : fs p = .absent none) :
    (loadOrCreateAt p fs).1 = .success "" ∧
    (loadOrCreateAt p ((loadOrCreateAt p fs).2)).1 = .success "" ∧
    (loadOrCreateAt p ((loadOrCreateAt p fs).2)).2 = (loadOrCreateAt p fs).2 := by
  have h1 : loadOrCreateAt p fs =
      (.success "", fun q => if q = p then .readable "" else fs q) := by
    unfold loadOrCreateAt openFile createFile
    rw [h]
    rfl
  rw [h1]
  refine ⟨rfl, ?_, ?_⟩
  · unfold loadOrCreateAt openFile
    simp [readStep, readToString]
  · unfold loadOrCreateAt openFile
    simp [readStep, readToString]

/-- Witness for C7 at a concrete filesystem with no resource anywhere. -/
theorem loadOrCreate_idempotent_witness :
    (loadOrCreateAt "hello.txt" (fsAll (.absent none))).1 = .success "" ∧
    (loadOrCreateAt "hello.txt"
      ((loadOrCreateAt "hello.txt" (fsAll (.absent none))).2)).1 = .success "" ∧
    (loadOrCreateAt "hello.txt"
      ((loadOrCreateAt "hello.txt" (fsAll (.absent none))).2)).2 =
      (loadOrCreateAt "hello.txt" (fsAll (.absent none))).2 :=
  loadOrCreate_idempotent "hello.txt" (fsAll (.absent none)) rfl

/-- C8: on every filesystem, the explicit-`match` variant
`read_username_from_file` and the `?`-operator variant
`read_username_from_file2` return the same value: the same `Ok` string when
open and read both succeed, and the same error in the same failure cases. -/
theorem read_username_from_file_eq_file2 (fs : FS) :
    read_username_from_file fs = read_username_from_file2 fs := by
  unfold read_username_from_file read_username_from_file2
  cases h : openFile "hello.txt" fs with
  | error e => simp [Except.bind, h]
  | ok f =>
    cases h2 : readToString f with
    | error e => simp [Except.bind, h, h2]
    | ok s => simp [Except.bind, h, h2]

/-- C10: every open, create and read in the program targets the single
fixed path `"hello.txt"`: the source functions are exactly the path-generic
logic instantiated at `"hello.txt"` (first two conjuncts), their outcomes
depend only on the state of `"hello.txt"` (third conjunct), and no other
path is ever modified (fourth conjunct). -/
theorem fixed_path_hello (fs fsB : FS) (q : String) :
    read_username_from_file fs = read_username_at "hello.txt" fs ∧
    loadOrCreate fs = loadOrCreateAt "hello.txt" fs ∧
    (fs "hello.txt" = fsB "hello.txt" →
      (loadOrCreate fs).1 = (loadOrCreate fsB).1 ∧
      (read_username_from_file fs).1 = (read_username_from_file fsB).1 ∧
      (read_username_from_file2 fs).1 = (read_username_from_file2 fsB).1) ∧
    (q ≠ "hello.txt" → (loadOrCreate fs).2 q = fs q) := by
  refine ⟨rfl, rfl, fun h => ?_, fun hq => ?_⟩
  · have hB : fsB "hello.txt" = fs "hello.txt" := h.symm
    rcases hfs : fs "hello.txt" with o | c | k | k <;> rw [hfs] at hB
    · rcases o with _ | k <;>
        refine ⟨?_, ?_, ?_⟩ <;>
        simp [loadOrCreate, read_username_from_file, read_username_from_file2,
          openFile, createFile, readStep, readToString, Except.bind, hfs, hB]
    · refine ⟨?_, ?_, ?_⟩ <;>
        simp [loadOrCreate, read_username_from_file, read_username_from_file2,
          openFile, readStep, readToString, Except.bind, hfs, hB]
    · cases k <;>
        refine ⟨?_, ?_, ?_⟩ <;>
        simp [loadOrCreate, read_username_from_file, read_username_from_file2,
          openFile, createFile, readStep, readToString, Except.bind, hfs, hB]
    · refine ⟨?_, ?_, ?_⟩ <;>
        simp [loadOrCreate, read_username_from_file, read_username_from_file2,
          openFile, readStep, readToString, Except.bind, hfs, hB]
  · rcases hfs : fs "hello.txt" with o | c | k | k
    · rcases o with _ | k
      · simp [loadOrCreate, openFile, createFile, hfs, hq]
      · simp [loadOrCreate, openFile, createFile, hfs]
    · simp [loadOrCreate, openFile, hfs]
    · cases k <;> simp [loadOrCreate, openFile, createFile, hfs]
    · simp [loadOrCreate, openFile, hfs]

/-- Witness for C10 at a concrete filesystem, including the two conditional
conjuncts instantiated at a concrete equal-state filesystem and at the
concrete distinct path `"other.txt"`. -/
theorem fixed_path_hello_witness :
    read_username_from_file (fsAll (.readable "a")) =
      read_username_at "hello.txt" (fsAll (.readable "a")) ∧
    (loadOrCreate (fsAll (.readable "a"))).1 =
      (loadOrCreate (fsAll (.readable "a"))).1 ∧
    (loadOrCreate (fsAll (.readable "a"))).2 "other.txt" =
      (fsAll (.readable "a")) "other.txt" :=
  ⟨(fixed_path_hello (fsAll (.readable "a")) (fsAll (.readable "a")) "other.txt").1,
   ((fixed_path_hello (fsAll (.readable "a")) (fsAll (.readable "a")) "other.txt").2.2.1
      rfl).1,
   (fixed_path_hello (fsAll (.readable "a")) (fsAll (.readable "a")) "other.txt").2.2.2
      (by decide)⟩

end ErrorHandling
